import Mathlib

/-
Verification of fairscale/optim/grad_scaler.py (class ShardedGradScaler).

The development below is a shallow embedding of the scaler: Python float
values become an extended-value type FpVal (finite rationals plus the IEEE
infinities and nan), Python ints become ℤ, one-element device tensors become
their (device, value) pairs, gradient tensors become lists of element values,
and the mutable object state becomes an explicit ScalerState record threaded
through the operations.  Fallible Python code (asserts, raise) becomes
Except String.  External capabilities (the torch vectorized kernels and the
collective all-reduce) are modelled from their documented semantics and are
marked as such in their doc comments; everything else is translated from the
repository source.
-/

/-- Device kinds accepted by the scaler (the source asserts is_cuda, xla or cpu). -/
inductive DeviceType where
  | cpu
  | cuda
  | xla
deriving DecidableEq, Repr

/-- A torch device: a kind plus an index (e.g. cuda:0). -/
structure Device where
  type : DeviceType
  index : ℕ
deriving DecidableEq, Repr

/-- Element dtypes relevant to the scaler. -/
inductive DType where
  | f16
  | f32
  | f64
deriving DecidableEq, Repr

/-- Value of a Python float / a float32 tensor element: a finite rational or one
of the IEEE special values.  Structural equality agrees with Python float
equality on every comparison performed by the source (the source only compares
flag values, which are never nan, against the infinities). -/
inductive FpVal where
  | fin (q : ℚ)
  | inf
  | neginf
  | nan
deriving DecidableEq, Repr

/-- IEEE addition on the embedded float values. -/
def FpVal.add : FpVal → FpVal → FpVal
  | .nan, _ => .nan
  | _, .nan => .nan
  | .fin a, .fin b => .fin (a + b)
  | .fin _, .inf => .inf
  | .inf, .fin _ => .inf
  | .inf, .inf => .inf
  | .fin _, .neginf => .neginf
  | .neginf, .fin _ => .neginf
  | .neginf, .neginf => .neginf
  | .inf, .neginf => .nan
  | .neginf, .inf => .nan

/-- IEEE multiplication of an embedded float value by a finite rational. -/
def FpVal.mulQ : FpVal → ℚ → FpVal
  | .fin a, q => .fin (a * q)
  | .inf, q => if 0 < q then .inf else if q < 0 then .neginf else .nan
  | .neginf, q => if 0 < q then .neginf else if q < 0 then .inf else .nan
  | .nan, _ => .nan

/-- torch.isinf(x).any() or torch.isnan(x).any() for a single element. -/
def FpVal.isNonFinite : FpVal → Bool
  | .fin _ => false
  | _ => true

/-- Python truthiness of a float value (False exactly for 0.0). -/
def FpVal.toBool : FpVal → Bool
  | .fin q => decide (q ≠ 0)
  | _ => true

/-- A dense torch tensor: its device, dtype and element values. -/
structure Tensor where
  device : Device
  dtype : DType
  vals : List FpVal
deriving DecidableEq, Repr

/-- An optimizer parameter; param.grad is None or a tensor. -/
structure Param where
  grad : Option Tensor
deriving DecidableEq, Repr

/-- The wrapped optimizer: its Python id, the _step_supports_amp_scaling
capability flag, its param_groups (each a list of params), and an abstract
token standing for the value its own step() returns. -/
structure Optimizer where
  oid : ℕ
  step_supports_amp_scaling : Bool
  param_groups : List (List Param)
  step_ret : ℕ
deriving DecidableEq, Repr

/-- The OptState enum of the source. -/
inductive OptState where
  | READY
  | UNSCALED
  | STEPPED
deriving DecidableEq, Repr

/-- One entry of _per_optimizer_states: the stage marker and the
found_inf_per_device mapping (device → one-element float flag). -/
structure OptimizerState where
  stage : OptState
  found_inf_per_device : List (Device × FpVal)
deriving DecidableEq, Repr

/-- Result of _refresh_per_optimizer_state, also the defaultdict default. -/
def defaultOptState : OptimizerState :=
  { stage := OptState.READY, found_inf_per_device := [] }

/-- The mutable state of a ShardedGradScaler instance.  The lazily created
one-element buffers _scale and _growth_tracker are their device and value when
materialized, none before.  On a disabled instance the Python object never
creates the numeric attributes; the model keeps the construction arguments in
the fields, which no operation of a disabled instance reads. -/
structure ScalerState where
  enabled : Bool
  init_scale : ℚ
  growth_factor : ℚ
  backoff_factor : ℚ
  growth_interval : ℤ
  init_growth_tracker : ℤ
  scale : Option (Device × ℚ)
  growth_tracker : Option ℤ
  per_optimizer_states : List (ℕ × OptimizerState)
deriving DecidableEq, Repr

/-- Association-list lookup for _per_optimizer_states (Python dict keyed by
id(optimizer)). -/
def lookupAssoc : List (ℕ × OptimizerState) → ℕ → Option OptimizerState
  | [], _ => none
  | (k, v) :: rest, key => if k = key then some v else lookupAssoc rest key

/-- Association-list overwrite-or-append for _per_optimizer_states. -/
def setAssoc : List (ℕ × OptimizerState) → ℕ → OptimizerState → List (ℕ × OptimizerState)
  | [], key, v => [(key, v)]
  | (k, w) :: rest, key, v =>
      if k = key then (key, v) :: rest else (k, w) :: setAssoc rest key v

/-- Reading _per_optimizer_states[id(optimizer)]: the defaultdict returns the
fresh state when the key is absent. -/
def getOptState (s : ScalerState) (oid : ℕ) : OptimizerState :=
  (lookupAssoc s.per_optimizer_states oid).getD defaultOptState

/-- The insertion a defaultdict access performs when the key is absent. -/
def ensureOptState (s : ScalerState) (oid : ℕ) : ScalerState :=
  match lookupAssoc s.per_optimizer_states oid with
  | some _ => s
  | none =>
      { s with per_optimizer_states := s.per_optimizer_states ++ [(oid, defaultOptState)] }

/-- Writing back one optimizer state entry. -/
def setOptState (s : ScalerState) (oid : ℕ) (o : OptimizerState) : ScalerState :=
  { s with per_optimizer_states := setAssoc s.per_optimizer_states oid o }

/-- _check_scale_growth_tracker: asserts both lazy buffers are materialized and
returns them. -/
def checkScaleGrowthTracker (funcname : String) (s : ScalerState) :
    Except String ((Device × ℚ) × ℤ) :=
  match s.scale, s.growth_tracker with
  | some sc, some gt => .ok (sc, gt)
  | none, _ => .error ("Attempted " ++ funcname ++ " but _scale is None.")
  | some _, none => .error ("Attempted " ++ funcname ++ " but _growth_tracker is None.")

/-- _lazy_init_scale_growth_tracker: creates both one-element buffers on dev. -/
def lazyInitScaleGrowthTracker (s : ScalerState) (dev : Device) : Except String ScalerState :=
  match s.growth_tracker with
  | some _ => .error "_growth_tracker initialized before _scale"
  | none =>
      .ok { s with scale := some (dev, s.init_scale),
                   growth_tracker := some s.init_growth_tracker }

/-- __init__ of ShardedGradScaler.  ampAvailable is the (negated) external
amp_definitely_not_available() probe; when amp is unavailable an enabled
request is downgraded to disabled with a warning.  The asserts on the factor
ranges run only on an enabled instance. -/
def mkShardedGradScaler (init_scale growth_factor backoff_factor : ℚ)
    (growth_interval : ℤ) (enabled ampAvailable : Bool) : Except String ScalerState :=
  let en := if enabled ∧ ¬ampAvailable then false else enabled
  if en then
    if ¬(1 < growth_factor) then .error "The growth factor must be > 1.0."
    else if ¬(backoff_factor < 1) then .error "The backoff factor must be < 1.0."
    else
      .ok { enabled := true, init_scale := init_scale, growth_factor := growth_factor,
            backoff_factor := backoff_factor, growth_interval := growth_interval,
            init_growth_tracker := 0, scale := none, growth_tracker := none,
            per_optimizer_states := [] }
  else
    .ok { enabled := false, init_scale := init_scale, growth_factor := growth_factor,
          backoff_factor := backoff_factor, growth_interval := growth_interval,
          init_growth_tracker := 0, scale := none, growth_tracker := none,
          per_optimizer_states := [] }

/-- Element loop of _foreach_non_finite_check_and_unscale_cpu_: walks the
elements of one tensor in order; the first non-finite element stops the walk
(break) and reports a hit, every element before it is multiplied in place by
inv_scale. -/
def scanElems (inv_scale : ℚ) : List FpVal → List FpVal × Bool
  | [] => ([], false)
  | x :: xs =>
      if x.isNonFinite then (x :: xs, true)
      else
        let r := scanElems inv_scale xs
        (x.mulQ inv_scale :: r.1, r.2)

/-- _foreach_non_finite_check_and_unscale_cpu_ of the source: given the grads
of one (device, dtype) group, the current per-device found_inf flag value and
inv_scale, returns the updated grads and flag.  The source iterates
`for tensor in grads[0]`, i.e. over the elements of the first gradient tensor
only; a hit sets the flag buffer to 1.0, otherwise the flag is left as it was.
An empty group returns immediately. -/
def foreachNonFiniteCheckAndUnscaleCpu (grads : List (List FpVal)) (found_inf : FpVal)
    (inv_scale : ℚ) : List (List FpVal) × FpVal :=
  match grads with
  | [] => ([], found_inf)
  | g0 :: rest =>
      let r := scanElems inv_scale g0
      (r.1 :: rest, if r.2 then FpVal.fin 1 else found_inf)

/-- Semantics of the external torch._amp_foreach_non_finite_check_and_unscale_
kernel (an external torch capability, modelled from its documented behavior):
every element of every tensor of the group is multiplied by inv_scale, and the
found_inf flag is set to 1.0 if any element of any tensor is non-finite. -/
def ampForeachNonFiniteCheckAndUnscale (grads : List (List FpVal)) (found_inf : FpVal)
    (inv_scale : ℚ) : List (List FpVal) × FpVal :=
  (grads.map (fun g => g.map (fun x => x.mulQ inv_scale)),
   if grads.any (fun g => g.any FpVal.isNonFinite) then FpVal.fin 1 else found_inf)

/-- Gradient-gathering loop of _unscale_grads_ over one param group: params
without a gradient are skipped, an fp16 gradient raises when allow_fp16 is
false.  (Sparse gradients, which the source coalesces first, are outside this
model; every Tensor here is dense.) -/
def gatherGroupGrads (allow_fp16 : Bool) : List Param → Except String (List Tensor)
  | [] => .ok []
  | p :: ps =>
      match p.grad with
      | none => gatherGroupGrads allow_fp16 ps
      | some g =>
          if allow_fp16 = false ∧ g.dtype = DType.f16 then
            .error "Attempting to unscale FP16 gradients."
          else
            match gatherGroupGrads allow_fp16 ps with
            | .error e => .error e
            | .ok ts => .ok (g :: ts)

/-- Gradient gathering over all param groups, in order. -/
def gatherAllGrads (allow_fp16 : Bool) : List (List Param) → Except String (List Tensor)
  | [] => .ok []
  | g :: gs =>
      match gatherGroupGrads allow_fp16 g with
      | .error e => .error e
      | .ok ts =>
          match gatherAllGrads allow_fp16 gs with
          | .error e => .error e
          | .ok ts' => .ok (ts ++ ts')

/-- Appends a tensor to its (device, dtype) bucket, creating the bucket at the
end on first use (Python dict insertion order). -/
def appendGroup (key : Device × DType) (t : Tensor) :
    List ((Device × DType) × List Tensor) → List ((Device × DType) × List Tensor)
  | [] => [(key, [t])]
  | (k, ts) :: rest =>
      if k = key then (k, ts ++ [t]) :: rest else (k, ts) :: appendGroup key t rest

/-- per_device_and_dtype_grads of _unscale_grads_: grads bucketed by
(device, dtype) in first-seen order. -/
def groupByDeviceAndDtype (ts : List Tensor) : List ((Device × DType) × List Tensor) :=
  ts.foldl (fun acc t => appendGroup (t.device, t.dtype) t acc) []

/-- Lookup in the per-device found_inf replicator cache. -/
def lookupFlag : List (Device × FpVal) → Device → Option FpVal
  | [], _ => none
  | (d, v) :: rest, dev => if d = dev then some v else lookupFlag rest dev

/-- Overwrite-or-append in the per-device found_inf replicator cache. -/
def setFlag : List (Device × FpVal) → Device → FpVal → List (Device × FpVal)
  | [], dev, v => [(dev, v)]
  | (d, w) :: rest, dev, v =>
      if d = dev then (d, v) :: rest else (d, w) :: setFlag rest dev v

/-- Per-group kernel dispatch loop of _unscale_grads_: the per-device flag is
fetched from the replicator cache (created from the master value on first
touch), a cpu group runs the elementwise fallback, any other device runs the
vectorized torch kernel, and the resulting flag value is stored back.  The
returned mapping is the replicator cache, i.e. exactly the touched devices. -/
def runUnscaleGroups (inv_scale : ℚ) (master : FpVal) :
    List ((Device × DType) × List Tensor) → List (Device × FpVal) → List (Device × FpVal)
  | [], flags => flags
  | (key, ts) :: rest, flags =>
      let dev := key.1
      let cur := (lookupFlag flags dev).getD master
      let r :=
        if dev.type = DeviceType.cpu then
          foreachNonFiniteCheckAndUnscaleCpu (ts.map Tensor.vals) cur inv_scale
        else
          ampForeachNonFiniteCheckAndUnscale (ts.map Tensor.vals) cur inv_scale
      runUnscaleGroups inv_scale master rest (setFlag flags dev r.2)

/-- _unscale_grads_: gathers every gradient of the optimizer, groups it by
(device, dtype) and runs the per-group scan; returns the per-device found_inf
mapping.  master is the value of the found_inf buffer handed in by the caller
(0.0 in the unscale_ flow). -/
def unscaleGrads (opt : Optimizer) (inv_scale : ℚ) (master : FpVal) (allow_fp16 : Bool) :
    Except String (List (Device × FpVal)) :=
  match gatherAllGrads allow_fp16 opt.param_groups with
  | .error e => .error e
  | .ok ts => .ok (runUnscaleGroups inv_scale master (groupByDeviceAndDtype ts) [])

/-- torch.cuda.amp.GradScaler.unscale_ (the superclass method, an external
torch capability modelled from its documented behavior): checks the stage,
computes inv_scale as the reciprocal of the scale, creates a zero found_inf
buffer on the scale device and delegates to the (overridden) _unscale_grads_
with allow_fp16=False, storing the returned mapping and marking the stage
UNSCALED. -/
def superUnscale (s : ScalerState) (opt : Optimizer) : Except String ScalerState :=
  match checkScaleGrowthTracker "unscale_" s with
  | .error e => .error e
  | .ok ((_, sv), _) =>
      let s1 := ensureOptState s opt.oid
      let ost := getOptState s1 opt.oid
      if ost.stage = OptState.UNSCALED then
        .error "unscale_ has already been called on this optimizer since the last update()."
      else if ost.stage = OptState.STEPPED then
        .error "unscale_ is being called after step()."
      else
        match unscaleGrads opt (sv⁻¹) (FpVal.fin 0) false with
        | .error e => .error e
        | .ok flags =>
            .ok (setOptState s1 opt.oid { stage := OptState.UNSCALED, found_inf_per_device := flags })

/-- ShardedGradScaler.unscale_: after the superclass unscale_, every recorded
found_inf flag is all-reduced (sum) across the process group.  The collective
is an external capability: adding `others dev` — the summed contribution of the
other ranks for that device — models the in-place all_reduce of a buffer.  For
a flag living on a cpu device the source reduces a temporary cuda copy
(v_on_cuda) and the expression v_on_cuda.cpu() discards its result, so the
mapping entry itself keeps its local value. -/
def unscale (others : Device → ℚ) (s : ScalerState) (opt : Optimizer) :
    Except String ScalerState :=
  match superUnscale s opt with
  | .error e => .error e
  | .ok s1 =>
      let ost := getOptState s1 opt.oid
      let flags := ost.found_inf_per_device.map (fun dv =>
        if dv.1.type = DeviceType.cpu then dv
        else (dv.1, dv.2.add (FpVal.fin (others dv.1))))
      .ok (setOptState s1 opt.oid { stage := ost.stage, found_inf_per_device := flags })

/-- Sum of the recorded per-device flags, as _maybe_opt_step computes it. -/
def sumFoundInf (flags : List (Device × FpVal)) : FpVal :=
  flags.foldl (fun acc dv => acc.add dv.2) (FpVal.fin 0)

/-- _maybe_opt_step: runs optimizer.step exactly when the flag sum is falsy. -/
def maybeOptStep (opt : Optimizer) (flags : List (Device × FpVal)) : Option ℕ :=
  if (sumFoundInf flags).toBool then none else some opt.step_ret

/-- ShardedGradScaler.step.  Returns the value optimizer.step returned (none
when the step was skipped) together with the new scaler state.  kwargs_has_closure
models the presence of a closure keyword argument. -/
def step (others : Device → ℚ) (s : ScalerState) (opt : Optimizer)
    (kwargs_has_closure : Bool) : Except String (Option ℕ × ScalerState) :=
  if s.enabled = false then .ok (some opt.step_ret, s)
  else if kwargs_has_closure then
    .error "Closure use is not currently supported if GradScaler is enabled."
  else
    match checkScaleGrowthTracker "step" s with
    | .error e => .error e
    | .ok _ =>
        let s1 := ensureOptState s opt.oid
        let ost := getOptState s1 opt.oid
        if ost.stage = OptState.STEPPED then
          .error "step() has already been called since the last update()."
        else if opt.step_supports_amp_scaling then
          .ok (some opt.step_ret,
               setOptState s1 opt.oid { stage := OptState.STEPPED,
                                        found_inf_per_device := ost.found_inf_per_device })
        else
          match (if ost.stage = OptState.READY then unscale others s1 opt else .ok s1) with
          | .error e => .error e
          | .ok s2 =>
              let ost2 := getOptState s2 opt.oid
              if ost2.found_inf_per_device.length = 0 then
                .error "No inf checks were recorded for this optimizer."
              else
                .ok (maybeOptStep opt ost2.found_inf_per_device,
                     setOptState s2 opt.oid { stage := OptState.STEPPED,
                                              found_inf_per_device := ost2.found_inf_per_device })

/-- _amp_update_scale_cpu_ of the source: backoff is applied only when the
combined flag compares equal to +infinity or -infinity; otherwise the growth
branch runs, multiplying the scale by growth_factor when the incremented
tracker reaches growth_interval. -/
def ampUpdateScaleCpu (growth backoff : ℚ) (interval : ℤ) (scaleVal : ℚ)
    (tracker : ℤ) (found_inf : FpVal) : ℚ × ℤ :=
  if found_inf = FpVal.inf ∨ found_inf = FpVal.neginf then
    (scaleVal * backoff, 0)
  else
    if tracker + 1 = interval then (scaleVal * growth, 0)
    else (scaleVal, tracker + 1)

/-- Semantics of the external torch._amp_update_scale_ kernel (an external
torch capability, modelled from its documented behavior): a truthy (non-zero)
found_inf applies backoff and resets the tracker; otherwise the growth branch
runs. -/
def ampUpdateScaleTorch (growth backoff : ℚ) (interval : ℤ) (scaleVal : ℚ)
    (tracker : ℤ) (found_inf : FpVal) : ℚ × ℤ :=
  if found_inf.toBool then (scaleVal * backoff, 0)
  else
    if tracker + 1 = interval then (scaleVal * growth, 0)
    else (scaleVal, tracker + 1)

/-- The found_infs list of update(): every per-device flag of every tracked
optimizer state, in recording order (the .to(device) copy preserves the value). -/
def allFoundInfs (s : ScalerState) : List FpVal :=
  (s.per_optimizer_states.map (fun p => p.2.found_inf_per_device.map Prod.snd)).flatten

/-- found_inf_combined of update(): the first flag, with every further flag
added in place. -/
def combineFlags : List FpVal → FpVal
  | [] => FpVal.fin 0
  | f :: fs => fs.foldl FpVal.add f

/-- The explicit new_scale accepted by update(): a Python float, or a tensor
with its device, dtype, element count and requires_grad flag. -/
inductive NewScale where
  | pyfloat (q : ℚ)
  | tensor (device : Device) (dtype : DType) (numel : ℕ) (requires_grad : Bool) (val : ℚ)
deriving DecidableEq, Repr

/-- The explicit-new-scale branch of update(): a float fills the scale buffer;
a tensor must be a one-element cuda float tensor with requires_grad False and
is copied into the buffer. -/
def applyNewScale (s : ScalerState) (dev : Device) (ns : NewScale) : Except String ScalerState :=
  match ns with
  | .pyfloat q => .ok { s with scale := some (dev, q) }
  | .tensor d dt n rg v =>
      if ¬(d.type = DeviceType.cuda ∧ dt = DType.f32) then
        .error "new_scale should be a float or a 1-element torch.cuda.FloatTensor with requires_grad=False."
      else if ¬(n = 1) then
        .error "new_scale should be a float or a 1-element torch.cuda.FloatTensor with requires_grad=False."
      else if rg then
        .error "new_scale should be a float or a 1-element torch.cuda.FloatTensor with requires_grad=False."
      else .ok { s with scale := some (dev, v) }

/-- ShardedGradScaler.update.  With an explicit new_scale the scale buffer is
filled directly; otherwise the recorded flags are combined by summation and the
scale update kernel for the scale device runs.  Either way the per-optimizer
state map is replaced by a fresh empty one. -/
def update (s : ScalerState) (new_scale : Option NewScale) : Except String ScalerState :=
  if s.enabled = false then .ok s
  else
    match checkScaleGrowthTracker "update" s with
    | .error e => .error e
    | .ok ((dev, sv), gt) =>
        match new_scale with
        | some ns =>
            match applyNewScale s dev ns with
            | .error e => .error e
            | .ok s' => .ok { s' with per_optimizer_states := [] }
        | none =>
            let found_infs := allFoundInfs s
            if found_infs.length = 0 then
              .error "No inf checks were recorded prior to update."
            else
              let combined := combineFlags found_infs
              let p :=
                if dev.type = DeviceType.cpu then
                  ampUpdateScaleCpu s.growth_factor s.backoff_factor s.growth_interval sv gt combined
                else
                  ampUpdateScaleTorch s.growth_factor s.backoff_factor s.growth_interval sv gt combined
              .ok { s with scale := some (dev, p.1), growth_tracker := some p.2,
                           per_optimizer_states := [] }

/-- get_scale: the scale value (init_scale before materialization), or 1.0 on a
disabled instance. -/
def getScale (s : ScalerState) : ℚ :=
  if s.enabled then
    match s.scale with
    | none => s.init_scale
    | some sc => sc.2
  else 1

/-- _get_growth_tracker: the tracker value (init value before materialization),
or 0 on a disabled instance. -/
def getGrowthTracker (s : ScalerState) : ℤ :=
  if s.enabled then
    match s.growth_tracker with
    | none => s.init_growth_tracker
    | some t => t
  else 0

/-- A value stored in the persisted state blob: a Python float or int. -/
inductive SVal where
  | f (q : ℚ)
  | i (n : ℤ)
deriving DecidableEq, Repr

/-- Numeric reading of a blob value (fill_ accepts either Python number). -/
def SVal.asQ : SVal → ℚ
  | .f q => q
  | .i n => (n : ℚ)

/-- Integer reading of a blob value; the model keeps the integer-valued fields
of the state at type ℤ, so a float here is rejected. -/
def SVal.asZ : SVal → Except String ℤ
  | .i n => .ok n
  | .f _ => .error "expected an int entry in the state dict"

/-- Python dict lookup in the blob (KeyError when absent). -/
def lookupSD : List (String × SVal) → String → Except String SVal
  | [], key => .error ("KeyError: " ++ key)
  | (k, v) :: rest, key => if k = key then .ok v else lookupSD rest key

/-- state_dict: the five-entry blob on an enabled instance, empty otherwise. -/
def stateDict (s : ScalerState) : List (String × SVal) :=
  if s.enabled then
    [("scale", SVal.f (getScale s)),
     ("growth_factor", SVal.f s.growth_factor),
     ("backoff_factor", SVal.f s.backoff_factor),
     ("growth_interval", SVal.i s.growth_interval),
     ("_growth_tracker", SVal.i (getGrowthTracker s))]
  else []

/-- load_state_dict: a no-op on a disabled instance; an empty blob raises;
otherwise the five entries are read and already-materialized buffers are filled
in place (their device is untouched). -/
def loadStateDict (s : ScalerState) (sd : List (String × SVal)) : Except String ScalerState :=
  if s.enabled = false then .ok s
  else if sd.length = 0 then
    .error "The source state dict is empty, possibly because it was saved from a disabled instance of GradScaler."
  else
    match lookupSD sd "scale" with
    | .error e => .error e
    | .ok vscale =>
        match lookupSD sd "growth_factor" with
        | .error e => .error e
        | .ok vgf =>
            match lookupSD sd "backoff_factor" with
            | .error e => .error e
            | .ok vbf =>
                match lookupSD sd "growth_interval" with
                | .error e => .error e
                | .ok vgi =>
                    match lookupSD sd "_growth_tracker" with
                    | .error e => .error e
                    | .ok vgt =>
                        match vgi.asZ with
                        | .error e => .error e
                        | .ok ngi =>
                            match vgt.asZ with
                            | .error e => .error e
                            | .ok ngt =>
                                .ok { s with
                                      init_scale := vscale.asQ,
                                      scale := s.scale.map (fun sc => (sc.1, vscale.asQ)),
                                      growth_factor := vgf.asQ,
                                      backoff_factor := vbf.asQ,
                                      growth_interval := ngi,
                                      init_growth_tracker := ngt,
                                      growth_tracker := s.growth_tracker.map (fun _ => ngt) }

/-- __getstate__: on an enabled instance, asserts that no per-optimizer state
is recorded (iteration boundary) and snapshots the scale and tracker as plain
numbers, resetting the device buffers to lazily re-initialize. -/
def getstate (s : ScalerState) : Except String ScalerState :=
  if s.enabled then
    if s.per_optimizer_states.length = 0 then
      .ok { s with init_scale := getScale s,
                   init_growth_tracker := getGrowthTracker s,
                   scale := none,
                   growth_tracker := none }
    else
      .error "A GradScaler instance may only be pickled at the beginning of an iteration, or at the end after scaler.update()."
  else .ok s

/-- The outputs argument of scale(): a tensor, an iterable of outputs, or a
leaf of any other type (which raises). -/
inductive TensorTree where
  | ten (t : Tensor)
  | iter (ts : List TensorTree)
  | other
deriving Repr

/-- Multiplication of one tensor by the (replicated) scale buffer value. -/
def scaleTen (s : ScalerState) (t : Tensor) : Except String (TensorTree × ScalerState) :=
  match s.scale with
  | none => .error "assert failed: _scale is None"
  | some sc => .ok (TensorTree.ten { t with vals := t.vals.map (fun x => x.mulQ sc.2) }, s)

mutual

/-- apply_scale of scale(): a tensor triggers lazy materialization on its
device on first touch and is multiplied by the scale; an iterable is mapped
recursively; any other leaf raises ValueError. -/
def applyScale (s : ScalerState) : TensorTree → Except String (TensorTree × ScalerState)
  | .ten t =>
      (match s.scale with
       | none =>
           (match lazyInitScaleGrowthTracker s t.device with
            | .error e => .error e
            | .ok s' => scaleTen s' t)
       | some _ => scaleTen s t)
  | .iter ts =>
      (match applyScaleList s ts with
       | .error e => .error e
       | .ok r => .ok (TensorTree.iter r.1, r.2))
  | .other => .error "outputs must be a Tensor or an iterable of Tensors"

/-- apply_scale mapped over an iterable of outputs, left to right. -/
def applyScaleList (s : ScalerState) : List TensorTree → Except String (List TensorTree × ScalerState)
  | [] => .ok ([], s)
  | t :: ts =>
      (match applyScale s t with
       | .error e => .error e
       | .ok r =>
           match applyScaleList r.2 ts with
           | .error e => .error e
           | .ok r' => .ok (r.1 :: r'.1, r'.2))

end

/-- ShardedGradScaler.scale: returns outputs unchanged on a disabled instance,
otherwise multiplies every tensor of the structure by the scale. -/
def scaleOutputs (s : ScalerState) (outputs : TensorTree) : Except String (TensorTree × ScalerState) :=
  if s.enabled = false then .ok (outputs, s)
  else applyScale s outputs

/-- The cpu device. -/
def cpuDev : Device := { type := DeviceType.cpu, index := 0 }

/-- The first cuda device. -/
def cudaDev : Device := { type := DeviceType.cuda, index := 0 }

/-- One overflow-free iteration as recorded for update(): for each
(optimizer id, device list) pair a STEPPED state whose every per-device
overflow flag is 0.0. -/
def installZeroChecks (s : ScalerState) (checks : List (ℕ × List Device)) : ScalerState :=
  { s with per_optimizer_states :=
      checks.map (fun c =>
        (c.1, { stage := OptState.STEPPED,
                found_inf_per_device := c.2.map (fun d => (d, FpVal.fin 0)) })) }

/-- n consecutive overflow-free iterations: each installs the zero flags
recorded during that iteration and ends with update() and no explicit new
scale. -/
def runCleanIters (checks : ℕ → List (ℕ × List Device)) (s : ScalerState) :
    ℕ → Except String ScalerState
  | 0 => .ok s
  | n + 1 =>
      match update (installZeroChecks s (checks n)) none with
      | .error e => .error e
      | .ok s' => runCleanIters checks s' n

/-- Enabled scaler whose scale buffer lives on the cpu device, with one tracked
optimizer that recorded an overflow flag of 1.0 this iteration. -/
def c1State : ScalerState :=
  { enabled := true, init_scale := 65536, growth_factor := 2, backoff_factor := 1/2,
    growth_interval := 2000, init_growth_tracker := 0,
    scale := some (cpuDev, 1024), growth_tracker := some 0,
    per_optimizer_states :=
      [(7, { stage := OptState.STEPPED, found_inf_per_device := [(cpuDev, FpVal.fin 1)] })] }

/-- Enabled scaler (scale on cpu, value 2) with no per-optimizer state yet. -/
def c2State : ScalerState :=
  { enabled := true, init_scale := 65536, growth_factor := 2, backoff_factor := 1/2,
    growth_interval := 2000, init_growth_tracker := 0,
    scale := some (cpuDev, 2), growth_tracker := some 0, per_optimizer_states := [] }

/-- Optimizer with a single finite cpu gradient. -/
def c2Opt : Optimizer :=
  { oid := 3, step_supports_amp_scaling := false,
    param_groups := [[{ grad := some { device := cpuDev, dtype := DType.f32,
                                       vals := [FpVal.fin 4] } }]],
    step_ret := 11 }

/-- Enabled scaler on cuda with growth_interval 2, used to exercise the growth
schedule concretely. -/
def c4State : ScalerState :=
  { enabled := true, init_scale := 65536, growth_factor := 2, backoff_factor := 1/2,
    growth_interval := 2, init_growth_tracker := 0,
    scale := some (cudaDev, 8), growth_tracker := some 0, per_optimizer_states := [] }

/-- Enabled scaler whose only tracked optimizer is already STEPPED and whose
state map holds no overflow checks. -/
def c5State : ScalerState :=
  { enabled := true, init_scale := 65536, growth_factor := 2, backoff_factor := 1/2,
    growth_interval := 2000, init_growth_tracker := 0,
    scale := some (cudaDev, 64), growth_tracker := some 0,
    per_optimizer_states :=
      [(9, { stage := OptState.STEPPED, found_inf_per_device := [] })] }

/-- The optimizer tracked by c5State. -/
def c5Opt : Optimizer :=
  { oid := 9, step_supports_amp_scaling := false, param_groups := [[]], step_ret := 5 }

/-- Enabled scaler with materialized buffers, used for the round-trip check. -/
def c6State : ScalerState :=
  { enabled := true, init_scale := 65536, growth_factor := 3, backoff_factor := 1/4,
    growth_interval := 7, init_growth_tracker := 0,
    scale := some (cudaDev, 512), growth_tracker := some 4, per_optimizer_states := [] }

/-- A disabled scaler instance. -/
def c7State : ScalerState :=
  { enabled := false, init_scale := 65536, growth_factor := 2, backoff_factor := 1/2,
    growth_interval := 2000, init_growth_tracker := 0,
    scale := none, growth_tracker := none, per_optimizer_states := [] }

/-- An optimizer used with the disabled scaler. -/
def c7Opt : Optimizer :=
  { oid := 1, step_supports_amp_scaling := false, param_groups := [], step_ret := 42 }

/-- Enabled scaler with materialized buffers for the load_state_dict check. -/
def c8State : ScalerState :=
  { enabled := true, init_scale := 65536, growth_factor := 2, backoff_factor := 1/2,
    growth_interval := 2000, init_growth_tracker := 0,
    scale := some (cudaDev, 256), growth_tracker := some 3, per_optimizer_states := [] }

/-- A well-formed five-entry persisted blob. -/
def c8Blob : List (String × SVal) :=
  [("scale", SVal.f 128), ("growth_factor", SVal.f 4), ("backoff_factor", SVal.f (1/8)),
   ("growth_interval", SVal.i 100), ("_growth_tracker", SVal.i 9)]

/-- Enabled scaler at an iteration boundary (empty per-optimizer map). -/
def c9State : ScalerState :=
  { enabled := true, init_scale := 65536, growth_factor := 2, backoff_factor := 1/2,
    growth_interval := 2000, init_growth_tracker := 0,
    scale := some (cudaDev, 32), growth_tracker := some 6, per_optimizer_states := [] }

/-- Enabled scaler with zero overflow checks recorded, for the explicit
new_scale path. -/
def c10State : ScalerState :=
  { enabled := true, init_scale := 65536, growth_factor := 2, backoff_factor := 1/2,
    growth_interval := 2000, init_growth_tracker := 0,
    scale := some (cudaDev, 1024), growth_tracker := some 17, per_optimizer_states := [] }

theorem installZeroChecks_enabled (s : ScalerState) (cs : List (ℕ × List Device)) :
    (installZeroChecks s cs).enabled = s.enabled := rfl

theorem installZeroChecks_scale (s : ScalerState) (cs : List (ℕ × List Device)) :
    (installZeroChecks s cs).scale = s.scale := rfl

theorem installZeroChecks_growth_tracker (s : ScalerState) (cs : List (ℕ × List Device)) :
    (installZeroChecks s cs).growth_tracker = s.growth_tracker := rfl

theorem installZeroChecks_growth_factor (s : ScalerState) (cs : List (ℕ × List Device)) :
    (installZeroChecks s cs).growth_factor = s.growth_factor := rfl

theorem installZeroChecks_backoff_factor (s : ScalerState) (cs : List (ℕ × List Device)) :
    (installZeroChecks s cs).backoff_factor = s.backoff_factor := rfl

theorem installZeroChecks_growth_interval (s : ScalerState) (cs : List (ℕ × List Device)) :
    (installZeroChecks s cs).growth_interval = s.growth_interval := rfl

theorem installZeroChecks_init_scale (s : ScalerState) (cs : List (ℕ × List Device)) :
    (installZeroChecks s cs).init_scale = s.init_scale := rfl

theorem installZeroChecks_init_growth_tracker (s : ScalerState) (cs : List (ℕ × List Device)) :
    (installZeroChecks s cs).init_growth_tracker = s.init_growth_tracker := rfl

theorem allFoundInfs_installZeroChecks (s : ScalerState) (cs : List (ℕ × List Device)) :
    allFoundInfs (installZeroChecks s cs) =
      (cs.map (fun c => List.replicate c.2.length (FpVal.fin 0))).flatten := by
  simp [allFoundInfs, installZeroChecks, List.map_map, Function.comp_def]

theorem allFoundInfs_installZeroChecks_mem (s : ScalerState) (cs : List (ℕ × List Device)) :
    ∀ x ∈ allFoundInfs (installZeroChecks s cs), x = FpVal.fin 0 := by
  intro x hx
  rw [allFoundInfs_installZeroChecks] at hx
  simp only [List.mem_flatten, List.mem_map] at hx
  obtain ⟨a, ⟨c, _, rfl⟩, hxa⟩ := hx
  exact List.eq_of_mem_replicate hxa

theorem allFoundInfs_installZeroChecks_ne_nil (s : ScalerState) (cs : List (ℕ × List Device))
    (hne : ∃ c ∈ cs, c.2 ≠ []) :
    allFoundInfs (installZeroChecks s cs) ≠ [] := by
  obtain ⟨c, hc, hc2⟩ := hne
  rw [allFoundInfs_installZeroChecks]
  intro hcon
  rw [List.flatten_eq_nil_iff] at hcon
  have hrep := hcon (List.replicate c.2.length (FpVal.fin 0)) (List.mem_map_of_mem _ hc)
  rw [List.replicate_eq_nil_iff, List.length_eq_zero] at hrep
  exact hc2 hrep

theorem foldl_add_fin_zero (l : List FpVal) (h : ∀ x ∈ l, x = FpVal.fin 0) :
    l.foldl FpVal.add (FpVal.fin 0) = FpVal.fin 0 := by
  induction l with
  | nil => rfl
  | cons a l ih =>
      have ha := h a (by simp)
      subst ha
      have hadd : FpVal.add (FpVal.fin 0) (FpVal.fin 0) = FpVal.fin 0 := by
        simp [FpVal.add]
      rw [List.foldl_cons, hadd]
      exact ih (fun x hx => h x (by simp [hx]))

theorem combineFlags_all_zero (l : List FpVal) (hne : l ≠ [])
    (h : ∀ x ∈ l, x = FpVal.fin 0) :
    combineFlags l = FpVal.fin 0 := by
  cases l with
  | nil => exact absurd rfl hne
  | cons a l =>
      have ha := h a (by simp)
      subst ha
      simpa [combineFlags] using foldl_add_fin_zero l (fun x hx => h x (by simp [hx]))

theorem update_installZeroChecks_eq (s : ScalerState) (cs : List (ℕ × List Device))
    (dev : Device) (v : ℚ) (t : ℤ)
    (he : s.enabled = true) (hs : s.scale = some (dev, v)) (ht : s.growth_tracker = some t)
    (hne : ∃ c ∈ cs, c.2 ≠ []) :
    update (installZeroChecks s cs) none =
      .ok { s with
            scale := some (dev, if t + 1 = s.growth_interval then v * s.growth_factor else v),
            growth_tracker := some (if t + 1 = s.growth_interval then 0 else t + 1),
            per_optimizer_states := [] } := by
  have h0 : allFoundInfs (installZeroChecks s cs) ≠ [] :=
    allFoundInfs_installZeroChecks_ne_nil s cs hne
  have h1 : combineFlags (allFoundInfs (installZeroChecks s cs)) = FpVal.fin 0 :=
    combineFlags_all_zero _ h0 (allFoundInfs_installZeroChecks_mem s cs)
  have hlen : ¬ (allFoundInfs (installZeroChecks s cs)).length = 0 := by
    simpa [List.length_eq_zero] using h0
  by_cases hd : dev.type = DeviceType.cpu <;>
  by_cases hI : t + 1 = s.growth_interval <;>
  simp [update, checkScaleGrowthTracker, installZeroChecks_enabled, installZeroChecks_scale,
    installZeroChecks_growth_tracker, installZeroChecks_growth_factor,
    installZeroChecks_backoff_factor, installZeroChecks_growth_interval,
    installZeroChecks_init_scale, installZeroChecks_init_growth_tracker,
    he, hs, ht, hlen, h1, hd, hI, ampUpdateScaleCpu, ampUpdateScaleTorch, FpVal.toBool]

theorem runCleanIters_no_growth (checks : ℕ → List (ℕ × List Device))
    (hchecks : ∀ i, ∃ c ∈ checks i, c.2 ≠ []) :
    ∀ (n : ℕ) (s : ScalerState) (dev : Device) (v : ℚ) (t : ℤ),
      s.enabled = true → s.scale = some (dev, v) → s.growth_tracker = some t →
      t + (n : ℤ) < s.growth_interval →
      ∃ s', runCleanIters checks s n = .ok s' ∧
        s'.enabled = true ∧ s'.scale = some (dev, v) ∧
        s'.growth_tracker = some (t + (n : ℤ)) ∧
        s'.growth_factor = s.growth_factor ∧
        s'.growth_interval = s.growth_interval := by
  intro n
  induction n with
  | zero =>
      intro s dev v t he hs ht _
      exact ⟨s, rfl, he, hs, by simpa using ht, rfl, rfl⟩
  | succ n ih =>
      intro s dev v t he hs ht hlt
      have hI : ¬ (t + 1 = s.growth_interval) := by
        push_cast at hlt
        omega
      have hstep := update_installZeroChecks_eq s (checks n) dev v t he hs ht (hchecks n)
      rw [if_neg hI, if_neg hI] at hstep
      obtain ⟨s', hrun, he', hs', ht', hgf, hgi⟩ :=
        ih { s with scale := some (dev, v), growth_tracker := some (t + 1),
                    per_optimizer_states := [] } dev v (t + 1) he rfl rfl
          (by push_cast at hlt ⊢; omega)
      refine ⟨s', ?_, he', hs', ?_, hgf, hgi⟩
      · rw [runCleanIters, hstep]
        exact hrun
      · rw [ht']
        congr 1
        push_cast
        ring

theorem runCleanIters_growth (checks : ℕ → List (ℕ × List Device))
    (hchecks : ∀ i, ∃ c ∈ checks i, c.2 ≠ []) :
    ∀ (n : ℕ) (s : ScalerState) (dev : Device) (v : ℚ) (t : ℤ),
      s.enabled = true → s.scale = some (dev, v) → s.growth_tracker = some t →
      t + (n : ℤ) + 1 = s.growth_interval →
      ∃ s', runCleanIters checks s (n + 1) = .ok s' ∧
        s'.scale = some (dev, v * s.growth_factor) ∧ s'.growth_tracker = some 0 := by
  intro n
  induction n with
  | zero =>
      intro s dev v t he hs ht hI
      have hI1 : t + 1 = s.growth_interval := by
        push_cast at hI
        omega
      have hstep := update_installZeroChecks_eq s (checks 0) dev v t he hs ht (hchecks 0)
      rw [if_pos hI1, if_pos hI1] at hstep
      refine ⟨{ s with scale := some (dev, v * s.growth_factor), growth_tracker := some 0,
                       per_optimizer_states := [] }, ?_, rfl, rfl⟩
      rw [runCleanIters, hstep]
      rfl
  | succ n ih =>
      intro s dev v t he hs ht hI
      have hI1 : ¬ (t + 1 = s.growth_interval) := by
        push_cast at hI
        omega
      have hstep := update_installZeroChecks_eq s (checks (n + 1)) dev v t he hs ht
        (hchecks (n + 1))
      rw [if_neg hI1, if_neg hI1] at hstep
      obtain ⟨s', hrun, hs', ht'⟩ :=
        ih { s with scale := some (dev, v), growth_tracker := some (t + 1),
                    per_optimizer_states := [] } dev v (t + 1) he rfl rfl
          (by push_cast at hI ⊢; omega)
      refine ⟨s', ?_, hs', ht'⟩
      rw [runCleanIters, hstep]
      exact hrun

/-- C4: with the growth tracker at 0, for every run of N consecutive
overflow-free iterations (each recording at least one zero flag and ending in
update() with no explicit new scale): while N is below growth_interval the
scale is unchanged and the tracker equals N, and at N = growth_interval the
scale has been multiplied exactly once by growth_factor and the tracker is
back at 0. -/
theorem claim_C4_growth_schedule (checks : ℕ → List (ℕ × List Device))
    (s : ScalerState) (dev : Device) (v : ℚ)
    (hchecks : ∀ i, ∃ c ∈ checks i, c.2 ≠ [])
    (he : s.enabled = true) (hs : s.scale = some (dev, v)) (ht : s.growth_tracker = some 0) :
    (∀ n : ℕ, (n : ℤ) < s.growth_interval →
       ∃ s', runCleanIters checks s n = .ok s' ∧ s'.scale = some (dev, v) ∧
         s'.growth_tracker = some (n : ℤ)) ∧
    (∀ n : ℕ, (n : ℤ) = s.growth_interval → 0 < (n : ℤ) →
       ∃ s', runCleanIters checks s n = .ok s' ∧
         s'.scale = some (dev, v * s.growth_factor) ∧ s'.growth_tracker = some 0) := by
  constructor
  · intro n hn
    obtain ⟨s', h1, _, h3, h4, _, _⟩ :=
      runCleanIters_no_growth checks hchecks n s dev v 0 he hs ht (by simpa using hn)
    exact ⟨s', h1, h3, by simpa using h4⟩
  · intro n hn hpos
    obtain ⟨m, rfl⟩ : ∃ m, n = m + 1 := ⟨n - 1, by omega⟩
    obtain ⟨s', h1, h2, h3⟩ :=
      runCleanIters_growth checks hchecks m s dev v 0 he hs ht
        (by push_cast at hn ⊢; omega)
    exact ⟨s', h1, h2, h3⟩

theorem claim_C4_growth_schedule_witness :
    (∃ s', runCleanIters (fun _ => [(5, [cudaDev])]) c4State 1 = .ok s' ∧
       s'.scale = some (cudaDev, 8) ∧ s'.growth_tracker = some ((1 : ℕ) : ℤ)) ∧
    (∃ s', runCleanIters (fun _ => [(5, [cudaDev])]) c4State 2 = .ok s' ∧
       s'.scale = some (cudaDev, 8 * c4State.growth_factor) ∧
       s'.growth_tracker = some 0) := by
  have h := claim_C4_growth_schedule (fun _ => [(5, [cudaDev])]) c4State cudaDev 8
    (fun i => ⟨(5, [cudaDev]), by simp, by simp⟩) rfl rfl rfl
  exact ⟨h.1 1 (by decide), h.2 2 (by decide) (by decide)⟩

/-- C1: refuted on the source.  With the scale buffer on a cpu device and a
combined per-device overflow flag of 1.0 (non-zero), update() does not apply
the backoff factor: _amp_update_scale_cpu_ applies backoff only when the
combined flag compares equal to plus or minus infinity, so the scale stays at
1024 (instead of 1024 * backoff_factor = 512) and the growth tracker is
incremented instead of reset. -/
theorem claim_C1_cpu_overflow_skips_backoff :
    ∃ s', update c1State none = .ok s' ∧
      s'.scale = some (cpuDev, 1024) ∧
      s'.growth_tracker = some 1 ∧
      (1024 : ℚ) ≠ 1024 * c1State.backoff_factor := by
  refine ⟨_, rfl, rfl, rfl, by norm_num [c1State]⟩

/-- C2: refuted on the source.  A found-overflow flag on a cpu device is not
updated by the cross-process reduction in unscale_: the all-reduced cuda copy
is discarded (the result of v_on_cuda.cpu() is not written back), so with a
local flag of 0.0 and a peer contribution of 1.0 the map entry still holds
0.0, not the authoritative cross-process sum 0.0 + 1.0 = 1.0. -/
theorem claim_C2_cpu_flag_keeps_local_value :
    ∃ s', unscale (fun _ => 1) c2State c2Opt = .ok s' ∧
      (getOptState s' c2Opt.oid).found_inf_per_device = [(cpuDev, FpVal.fin 0)] ∧
      [(cpuDev, FpVal.fin 0)] ≠ [(cpuDev, FpVal.add (FpVal.fin 0) (FpVal.fin 1))] := by
  refine ⟨_, rfl, rfl, by norm_num [FpVal.add]⟩

/-- C3: refuted on the source.  The cpu fallback
_foreach_non_finite_check_and_unscale_cpu_ iterates over the elements of
grads[0] only, so in a group of two gradient tensors the second tensor, whose
sole element is infinite, is neither scanned nor unscaled and the found_inf
flag stays 0.0 (the claim requires it to become 1.0 and scanning to cover
every tensor of the group). -/
theorem claim_C3_fallback_scans_only_first_tensor :
    foreachNonFiniteCheckAndUnscaleCpu [[FpVal.fin 4], [FpVal.inf]] (FpVal.fin 0) (1/2)
      = ([[FpVal.fin 2], [FpVal.inf]], FpVal.fin 0) ∧
    (FpVal.fin 0 : FpVal) ≠ FpVal.fin 1 := by
  constructor
  · norm_num [foreachNonFiniteCheckAndUnscaleCpu, scanElems, FpVal.isNonFinite, FpVal.mulQ]
  · norm_num

/-- C7: on a disabled instance, scale() returns its input unchanged,
get_scale() returns 1.0, step() forwards directly to optimizer.step and
returns its result, update() returns without changing state, and state_dict()
is empty. -/
theorem claim_C7_disabled_behavior (s : ScalerState) (outputs : TensorTree)
    (opt : Optimizer) (others : Device → ℚ) (closure : Bool) (ns : Option NewScale)
    (he : s.enabled = false) :
    scaleOutputs s outputs = .ok (outputs, s) ∧
    getScale s = 1 ∧
    step others s opt closure = .ok (some opt.step_ret, s) ∧
    update s ns = .ok s ∧
    stateDict s = [] := by
  refine ⟨?_, ?_, ?_, ?_, ?_⟩ <;> simp [scaleOutputs, getScale, step, update, stateDict, he]

theorem claim_C7_disabled_behavior_witness :
    scaleOutputs c7State (TensorTree.iter []) = .ok (TensorTree.iter [], c7State) ∧
    getScale c7State = 1 ∧
    step (fun _ => 0) c7State c7Opt true = .ok (some c7Opt.step_ret, c7State) ∧
    update c7State none = .ok c7State ∧
    stateDict c7State = [] :=
  claim_C7_disabled_behavior c7State (TensorTree.iter []) c7Opt (fun _ => 0) true none rfl

/-- C9: pickling state extraction succeeds only at an iteration boundary: with
per-optimizer state still recorded it raises, and at a boundary the extracted
state carries the current scale and growth tracker as plain numbers with both
device buffers reset to re-initialize lazily. -/
theorem claim_C9_getstate_iteration_boundary (s : ScalerState) (he : s.enabled = true) :
    (s.per_optimizer_states ≠ [] →
       getstate s = .error "A GradScaler instance may only be pickled at the beginning of an iteration, or at the end after scaler.update().") ∧
    (s.per_optimizer_states = [] →
       getstate s = .ok { s with init_scale := getScale s,
                                 init_growth_tracker := getGrowthTracker s,
                                 scale := none, growth_tracker := none }) := by
  constructor
  · intro h
    have hlen : ¬ s.per_optimizer_states.length = 0 := by
      simpa [List.length_eq_zero] using h
    simp [getstate, he, hlen]
  · intro h
    simp [getstate, he, h]

theorem claim_C9_getstate_iteration_boundary_witness :
    (c9State.per_optimizer_states ≠ [] →
       getstate c9State = .error "A GradScaler instance may only be pickled at the beginning of an iteration, or at the end after scaler.update().") ∧
    (c9State.per_optimizer_states = [] →
       getstate c9State = .ok { c9State with init_scale := getScale c9State,
                                             init_growth_tracker := getGrowthTracker c9State,
                                             scale := none, growth_tracker := none }) :=
  claim_C9_getstate_iteration_boundary c9State rfl

/-- C10: update(new_scale) with an explicit value succeeds even with zero
recorded overflow checks, writes the value into the materialized scale buffer
(a tensor value must be a one-element cuda float tensor with requires_grad
False), leaves the growth tracker untouched, and replaces the per-optimizer
state map with a fresh empty one. -/
theorem claim_C10_explicit_new_scale (s : ScalerState) (dev : Device) (v q : ℚ) (t : ℤ)
    (he : s.enabled = true) (hs : s.scale = some (dev, v)) (ht : s.growth_tracker = some t)
    (hnochecks : allFoundInfs s = []) :
    update s (some (NewScale.pyfloat q)) =
      .ok { s with scale := some (dev, q), per_optimizer_states := [] } ∧
    (∀ d : Device, d.type = DeviceType.cuda →
       update s (some (NewScale.tensor d DType.f32 1 false q)) =
         .ok { s with scale := some (dev, q), per_optimizer_states := [] }) := by
  constructor
  · simp [update, checkScaleGrowthTracker, he, hs, ht, applyNewScale]
  · intro d hd
    simp [update, checkScaleGrowthTracker, he, hs, ht, applyNewScale, hd]

theorem lookupAssoc_setAssoc_self :
    ∀ (l : List (ℕ × OptimizerState)) (k : ℕ) (v : OptimizerState),
      lookupAssoc (setAssoc l k v) k = some v
  | [], k, v => by simp [setAssoc, lookupAssoc]
  | (k', w) :: rest, k, v => by
      by_cases h : k' = k
      · simp [setAssoc, lookupAssoc, h]
      · simp [setAssoc, lookupAssoc, h, lookupAssoc_setAssoc_self rest k v]

theorem lookupAssoc_append_of_none :
    ∀ (l l' : List (ℕ × OptimizerState)) (k : ℕ),
      lookupAssoc l k = none → lookupAssoc (l ++ l') k = lookupAssoc l' k
  | [], l', k, _ => by simp [lookupAssoc]
  | (k', w) :: rest, l', k, h => by
      by_cases hk : k' = k
      · rw [lookupAssoc, if_pos hk] at h
        exact absurd h (by simp)
      · rw [List.cons_append, lookupAssoc, if_neg hk]
        rw [lookupAssoc, if_neg hk] at h
        exact lookupAssoc_append_of_none rest l' k h

theorem getOptState_setOptState_self (s : ScalerState) (oid : ℕ) (o : OptimizerState) :
    getOptState (setOptState s oid o) oid = o := by
  simp [getOptState, setOptState, lookupAssoc_setAssoc_self]

/-- C5: step() on an optimizer whose stage is already STEPPED raises the
sequencing error; update() with zero recorded overflow checks raises the
no-checks error; and step() on a fresh optimizer whose unscale records no
per-device check (no gradients) raises the per-optimizer no-checks error. -/
theorem claim_C5_sequencing_errors (s : ScalerState) (opt : Optimizer)
    (others : Device → ℚ) (dev : Device) (v : ℚ) (t : ℤ)
    (he : s.enabled = true) (hs : s.scale = some (dev, v)) (ht : s.growth_tracker = some t) :
    ((getOptState s opt.oid).stage = OptState.STEPPED →
       step others s opt false = .error "step() has already been called since the last update().") ∧
    (allFoundInfs s = [] →
       update s none = .error "No inf checks were recorded prior to update.") ∧
    (lookupAssoc s.per_optimizer_states opt.oid = none →
       opt.step_supports_amp_scaling = false →
       unscaleGrads opt (v⁻¹) (FpVal.fin 0) false = .ok [] →
       step others s opt false = .error "No inf checks were recorded for this optimizer.") := by
  refine ⟨?_, ?_, ?_⟩
  · intro hst
    have hlk : lookupAssoc s.per_optimizer_states opt.oid = some (getOptState s opt.oid) := by
      rcases hl : lookupAssoc s.per_optimizer_states opt.oid with _ | o
      · rw [getOptState, hl] at hst
        simp [defaultOptState] at hst
      · rw [getOptState, hl]
        rfl
    have hens : ensureOptState s opt.oid = s := by
      rw [ensureOptState, hlk]
    simp [step, he, checkScaleGrowthTracker, hs, ht, hens, hst]
  · intro hai
    simp [update, he, checkScaleGrowthTracker, hs, ht, hai]
  · intro hnone hamp hug
    have hlk2 : lookupAssoc
        (s.per_optimizer_states ++
          [(opt.oid, { stage := OptState.READY, found_inf_per_device := [] })]) opt.oid
        = some { stage := OptState.READY, found_inf_per_device := [] } := by
      rw [lookupAssoc_append_of_none _ _ _ hnone]
      simp [lookupAssoc]
    simp [step, he, checkScaleGrowthTracker, hs, ht, hamp, hnone, hug,
      unscale, superUnscale, ensureOptState, getOptState, setOptState, defaultOptState,
      hlk2, lookupAssoc_setAssoc_self]

theorem claim_C5_sequencing_errors_witness :
    step (fun _ => 0) c5State c5Opt false =
      .error "step() has already been called since the last update()." ∧
    update c5State none = .error "No inf checks were recorded prior to update." ∧
    step (fun _ => 0) c2State c5Opt false =
      .error "No inf checks were recorded for this optimizer." := by
  refine ⟨?_, ?_, ?_⟩
  · exact (claim_C5_sequencing_errors c5State c5Opt (fun _ => 0) cudaDev 64 0
      rfl rfl rfl).1 rfl
  · exact (claim_C5_sequencing_errors c5State c5Opt (fun _ => 0) cudaDev 64 0
      rfl rfl rfl).2.1 rfl
  · exact (claim_C5_sequencing_errors c2State c5Opt (fun _ => 0) cpuDev 2 0
      rfl rfl rfl).2.2 rfl rfl rfl

/-- C8: load_state_dict() on a disabled instance is a no-op for every blob; on
an enabled instance an empty blob raises; and a well-formed non-empty blob
loaded while the scale and tracker buffers are materialized fills those
buffers in place (same device, new value). -/
theorem claim_C8_load_state_dict (s : ScalerState) (sd : List (String × SVal))
    (dev : Device) (v q gf bf : ℚ) (t gi gt : ℤ) :
    (s.enabled = false → loadStateDict s sd = .ok s) ∧
    (s.enabled = true → loadStateDict s [] =
       .error "The source state dict is empty, possibly because it was saved from a disabled instance of GradScaler.") ∧
    (s.enabled = true → s.scale = some (dev, v) → s.growth_tracker = some t → sd ≠ [] →
     lookupSD sd "scale" = .ok (SVal.f q) →
     lookupSD sd "growth_factor" = .ok (SVal.f gf) →
     lookupSD sd "backoff_factor" = .ok (SVal.f bf) →
     lookupSD sd "growth_interval" = .ok (SVal.i gi) →
     lookupSD sd "_growth_tracker" = .ok (SVal.i gt) →
     loadStateDict s sd =
       .ok { s with init_scale := q, scale := some (dev, q), growth_factor := gf,
                    backoff_factor := bf, growth_interval := gi,
                    init_growth_tracker := gt, growth_tracker := some gt }) := by
  refine ⟨?_, ?_, ?_⟩
  · intro he
    simp [loadStateDict, he]
  · intro he
    simp [loadStateDict, he]
  · intro he hs ht hne h1 h2 h3 h4 h5
    have hlen : ¬ sd.length = 0 := by
      simpa [List.length_eq_zero] using hne
    simp [loadStateDict, he, hlen, h1, h2, h3, h4, h5, SVal.asQ, SVal.asZ, hs, ht]

theorem claim_C8_load_state_dict_witness :
    loadStateDict c7State c8Blob = .ok c7State ∧
    loadStateDict c8State [] =
      .error "The source state dict is empty, possibly because it was saved from a disabled instance of GradScaler." ∧
    loadStateDict c8State c8Blob =
      .ok { c8State with init_scale := 128, scale := some (cudaDev, 128),
                         growth_factor := 4, backoff_factor := 1/8,
                         growth_interval := 100, init_growth_tracker := 9,
                         growth_tracker := some 9 } := by
  refine ⟨?_, ?_, ?_⟩
  · exact (claim_C8_load_state_dict c7State c8Blob cudaDev 0 128 4 (1/8) 0 100 9).1 rfl
  · exact (claim_C8_load_state_dict c8State [] cudaDev 256 128 4 (1/8) 3 100 9).2.1 rfl
  · exact (claim_C8_load_state_dict c8State c8Blob cudaDev 256 128 4 (1/8) 3 100 9).2.2
      rfl rfl rfl (by simp [c8Blob]) rfl rfl rfl rfl rfl

/-- C6: for an enabled instance the persisted blob has exactly five entries,
and loading it into a freshly constructed enabled instance yields identical
get_scale, growth factor, backoff factor, growth interval and growth-tracker
readings. -/
theorem claim_C6_state_dict_roundtrip (s f : ScalerState) (is0 gf bf : ℚ) (gi : ℤ)
    (he : s.enabled = true)
    (hmk : mkShardedGradScaler is0 gf bf gi true true = .ok f) :
    (stateDict s).length = 5 ∧
    ∃ f', loadStateDict f (stateDict s) = .ok f' ∧
      getScale f' = getScale s ∧
      f'.growth_factor = s.growth_factor ∧
      f'.backoff_factor = s.backoff_factor ∧
      f'.growth_interval = s.growth_interval ∧
      getGrowthTracker f' = getGrowthTracker s := by
  have hsd : stateDict s =
      [("scale", SVal.f (getScale s)),
       ("growth_factor", SVal.f s.growth_factor),
       ("backoff_factor", SVal.f s.backoff_factor),
       ("growth_interval", SVal.i s.growth_interval),
       ("_growth_tracker", SVal.i (getGrowthTracker s))] := by
    simp [stateDict, he]
  by_cases h1 : 1 < gf
  case neg =>
    rw [mkShardedGradScaler] at hmk
    simp [h1] at hmk
  by_cases h2 : bf < 1
  case neg =>
    rw [mkShardedGradScaler] at hmk
    simp [h1, h2] at hmk
  rw [mkShardedGradScaler] at hmk
  simp [h1, h2] at hmk
  subst hmk
  constructor
  · rw [hsd]
    rfl
  · rw [hsd]
    refine ⟨_, rfl, ?_, ?_, ?_, ?_, ?_⟩ <;>
      simp [getScale, getGrowthTracker, SVal.asQ, he]

theorem claim_C6_state_dict_roundtrip_witness :
    (stateDict c6State).length = 5 ∧
    ∃ f', loadStateDict
        { enabled := true, init_scale := 65536, growth_factor := 3, backoff_factor := 0,
          growth_interval := 7, init_growth_tracker := 0, scale := none,
          growth_tracker := none, per_optimizer_states := [] } (stateDict c6State) = .ok f' ∧
      getScale f' = getScale c6State ∧
      f'.growth_factor = c6State.growth_factor ∧
      f'.backoff_factor = c6State.backoff_factor ∧
      f'.growth_interval = c6State.growth_interval ∧
      getGrowthTracker f' = getGrowthTracker c6State :=
  claim_C6_state_dict_roundtrip c6State
    { enabled := true, init_scale := 65536, growth_factor := 3, backoff_factor := 0,
      growth_interval := 7, init_growth_tracker := 0, scale := none,
      growth_tracker := none, per_optimizer_states := [] }
    65536 3 0 7 rfl (by norm_num [mkShardedGradScaler])

theorem claim_C10_explicit_new_scale_witness :
    update c10State (some (NewScale.pyfloat 99)) =
      .ok { c10State with scale := some (cudaDev, 99), per_optimizer_states := [] } ∧
    update c10State (some (NewScale.tensor cudaDev DType.f32 1 false 99)) =
      .ok { c10State with scale := some (cudaDev, 99), per_optimizer_states := [] } := by
  have h := claim_C10_explicit_new_scale c10State cudaDev 1024 99 17 rfl rfl rfl rfl
  exact ⟨h.1, h.2 cudaDev rfl⟩
